import Mathlib

/-!
Verification of the wallet core of `bdk-browser-wallet`
(`src/server/src/api/wallet.rs` and `src/server/src/api/esplora.rs`).

The Rust code wires the external `bdk` library into five operations:
`create_wallet`, `sync_wallet`, `create_signed_transaction`,
`broadcast_signed_transaction`, and the four server endpoints. We embed the
control flow of those functions faithfully: matches on `Result` values, the
`.unwrap()` and `panic!` calls, and the `let _ =` discards are all represented
explicitly. Calls into the external `bdk` / `bdk_esplora` libraries (mnemonic
parsing, descriptor construction, signing, the remote scan, the broadcast) are
parameters of the embedding: environments record the result each external call
returns, and the embedding reproduces exactly what the Rust source does with
that result. Where a claim is decided by logic that lives only in the external
library (the drain-transaction arithmetic, the scan/merge step), a definition
modelled from the specification stands in for it; those definitions say so in
their doc comments.

Rust panics are modelled as a distinct terminal outcome, separate from a
returned error: `Outcome.panicked` corresponds to process termination via
`panic!` / `.unwrap()`, while `Outcome.err` corresponds to an `Err` value
returned to the caller.
-/

namespace BdkWallet

/-- Bitcoin network selector, mirroring `bdk::bitcoin::Network`. -/
inductive Network where
  | Bitcoin
  | Testnet
  | Signet
  | Regtest
deriving DecidableEq, Repr

/-- The structured error taxonomy of the specification (section 7). -/
inductive ApiError where
  | InvalidMnemonic
  | InvalidDerivationPath
  | DescriptorError
  | InvalidAddress
  | InsufficientFunds
  | NoSpendableOutputs
  | SigningFailed
  | ChainClientError
  | BroadcastRejected
deriving DecidableEq, Repr

/-- Result of running one of the Rust functions: a success value, an `Err`
value returned to the caller, or a process-terminating panic
(`panic!` or `.unwrap()` on an `Err`). -/
inductive Outcome (ε α : Type) where
  | ok (a : α)
  | err (e : ε)
  | panicked (msg : String)
deriving DecidableEq, Repr

/-- `DEFAULT_ESPLORA_BASE_URL_MAINNET` (wallet.rs line 20). -/
def DEFAULT_ESPLORA_BASE_URL_MAINNET : String := "https://mempool.space/api"

/-- `DEFAULT_ESPLORA_BASE_URL_TESTNET` (wallet.rs line 21). -/
def DEFAULT_ESPLORA_BASE_URL_TESTNET : String := "https://mempool.space/testnet/api"

/-- `DEFAULT_DERIVATION_PATH_EXTERNAL` (wallet.rs line 16). -/
def DEFAULT_DERIVATION_PATH_EXTERNAL : String := "m/86\x27/0\x27/0\x27/0"

/-- `DEFAULT_DERIVATION_PATH_INTERNAL` (wallet.rs line 17). -/
def DEFAULT_DERIVATION_PATH_INTERNAL : String := "m/86\x27/0\x27/0\x27/1"

/-- The network-string match inside `create_wallet` (wallet.rs lines 56-62):
`"mainnet" => Bitcoin, "testnet" => Testnet, "signet" => Signet,
"regtest" => Regtest, _ => Testnet`. -/
def networkOfString (s : String) : Network :=
  if s = "mainnet" then .Bitcoin
  else if s = "testnet" then .Testnet
  else if s = "signet" then .Signet
  else if s = "regtest" then .Regtest
  else .Testnet

/-- The Esplora base-URL choice repeated in `get_utxo` (line 165), `get_balance`
(line 189) and `post_send_transaction` (line 245):
`if network == "bitcoin" { MAINNET } else { TESTNET }`. -/
def esploraBaseUrl (network : String) : String :=
  if network = "bitcoin" then DEFAULT_ESPLORA_BASE_URL_MAINNET
  else DEFAULT_ESPLORA_BASE_URL_TESTNET

/-- The `AddressType` enum of wallet.rs (lines 23-27). -/
inductive AddressType where
  | Receive
  | Change
deriving DecidableEq, Repr

/-- The address-type match inside `get_address` (wallet.rs lines 215-219):
`"receive" => Receive, "change" => Change, _ => Receive`. -/
def addressTypeOfString (s : String) : AddressType :=
  if s = "receive" then .Receive
  else if s = "change" then .Change
  else .Receive

/-- A parsed BIP-39 mnemonic (abstract to the core; produced by the external
`Mnemonic::parse_in`). -/
structure Mnemonic where
  raw : String
deriving DecidableEq, Repr

/-- A parsed BIP-32 derivation path (abstract to the core; produced by the
external `DerivationPath::from_str`). -/
structure DerivationPath where
  steps : List (Nat × Bool)
deriving DecidableEq, Repr

/-- A wallet descriptor: a taproot output template bound to a derivation path
and a network (produced by the external `descriptor!` /
`into_wallet_descriptor` machinery). -/
structure Descriptor where
  path : DerivationPath
  network : Network
deriving DecidableEq, Repr

/-- An output script (`Script`, obtained from `Address::script_pubkey`). -/
structure Script where
  bytes : String
deriving DecidableEq, Repr

/-- One unspent transaction output known to the wallet
(`bdk::LocalUtxo`, restricted to the fields the claims mention). -/
structure Utxo where
  txid : String
  vout : Nat
  value : Nat
deriving DecidableEq, Repr

/-- The in-memory wallet produced by `Wallet::new_no_persist`: the two
descriptors, the network, and the set of known UTXOs (empty at creation;
populated only by sync). -/
structure Wallet where
  externalDesc : Descriptor
  internalDesc : Descriptor
  network : Network
  utxos : List Utxo
deriving DecidableEq, Repr

/-- Results of the external library calls `create_wallet` makes. Each field
records what the corresponding external call returns; the embedding of
`create_wallet` reproduces what the Rust source does with that result. -/
structure WalletEnv where
  parseMnemonic : String → Except String Mnemonic
  parsePath : String → Except String DerivationPath
  makeDescriptor : Mnemonic → DerivationPath → Network → Except String Descriptor
  newWallet : Descriptor → Descriptor → Network → Except String Unit

/-- Embedding of `create_wallet` (wallet.rs lines 47-87).

Control flow taken from the source:
- `Mnemonic::parse_in(...)?` — a parse failure is propagated as `Err`;
- the network match (lines 56-62) via `networkOfString`;
- `DerivationPath::from_str(...).unwrap()` (lines 65-66) — a parse failure
  panics;
- the descriptor construction (lines 69-84) — a failure hits
  `panic!("Invalid external/internal derivation path: ...")`;
- `Wallet::new_no_persist(...)?` — a failure is propagated as `Err`. -/
def create_wallet (env : WalletEnv) (mnemonic network dpExternal dpInternal : String) :
    Outcome String Wallet :=
  match env.parseMnemonic mnemonic with
  | .error e => .err e
  | .ok m =>
    let net := networkOfString network
    match env.parsePath dpExternal with
    | .error _ => .panicked "called Option::unwrap on a None value"
    | .ok extPath =>
      match env.parsePath dpInternal with
      | .error _ => .panicked "called Option::unwrap on a None value"
      | .ok intPath =>
        match env.makeDescriptor m extPath net with
        | .error e => .panicked ("Invalid external derivation path: " ++ e)
        | .ok extDesc =>
          match env.makeDescriptor m intPath net with
          | .error e => .panicked ("Invalid internal derivation path: " ++ e)
          | .ok intDesc =>
            match env.newWallet extDesc intDesc net with
            | .error e => .err e
            | .ok _ =>
              .ok { externalDesc := extDesc, internalDesc := intDesc,
                    network := net, utxos := [] }

/-- One output of a transaction. -/
structure TxOut where
  script : Script
  value : Nat
deriving DecidableEq, Repr

/-- The unsigned drain transaction assembled by the transaction builder. -/
structure UnsignedTx where
  inputs : List Utxo
  outputs : List TxOut
  fee : Nat
  rbf : Bool
deriving DecidableEq, Repr

/-- Sum of the input values of a transaction. -/
def UnsignedTx.inputSum (tx : UnsignedTx) : Nat :=
  (tx.inputs.map Utxo.value).sum

/-- Sum of the output values of a transaction. -/
def UnsignedTx.outputSum (tx : UnsignedTx) : Nat :=
  (tx.outputs.map TxOut.value).sum

/-- Modelled from the spec: the estimated virtual size (vbytes) of a taproot
key-spend transaction with the given input and output counts. The estimate
itself lives inside the external bdk coin-selection code, not under `src/`;
the claims only need it to be a fixed function of the shape of the
transaction. -/
def estimatedVirtualSize (numInputs numOutputs : Nat) : Nat :=
  11 + 58 * numInputs + 43 * numOutputs

/-- Modelled from the spec: the network minimum relay / dust threshold for a
taproot output (spec section 4.4). -/
def dustThreshold : Nat := 330

/-- Modelled from the spec: the total value of the wallet UTXO set,
`sum(inputs)` of spec section 4.4. -/
def drainTotal (utxos : List Utxo) : Nat :=
  (utxos.map Utxo.value).sum

/-- Modelled from the spec: the fee of the drain transaction —
`feeRate x estimatedVirtualSize`, rounded up to a whole number of sats
(spec sections 3 and 4.4). -/
def drainFee (utxos : List Utxo) (feeRate : ℚ) : Nat :=
  (Int.ceil (feeRate * ((estimatedVirtualSize utxos.length 1 : Nat) : ℚ))).toNat

/-- Modelled from the spec: the drain-transaction builder
(`tx_builder.drain_wallet().drain_to(script).fee_rate(r).enable_rbf()`
followed by `tx_builder.finish()`, wallet.rs lines 134-143). The arithmetic
lives in the external bdk library; the specification (section 4.4) fixes its
contract: inputs are every UTXO of the wallet; the fee is
`feeRate x estimatedVirtualSize` (rounded up); there is a single output to
the destination worth `sum(inputs) - fee`; RBF is signalled; the builder
fails with `NoSpendableOutputs` when the wallet has zero UTXOs and with
`InsufficientFunds` when the total is below the dust threshold plus the
fee. -/
def drainTo (utxos : List Utxo) (dest : Script) (feeRate : ℚ) :
    Except ApiError UnsignedTx :=
  if utxos.isEmpty then .error .NoSpendableOutputs
  else if drainTotal utxos < dustThreshold + drainFee utxos feeRate then
    .error .InsufficientFunds
  else .ok { inputs := utxos,
             outputs := [{ script := dest,
                           value := drainTotal utxos - drainFee utxos feeRate }],
             fee := drainFee utxos feeRate, rbf := true }

/-- A signed-or-unfinished transaction as returned by `wallet.sign`: the
underlying transaction plus the finalized flag that `wallet.sign` reported
for it (signing only adds witness data; it does not change inputs or
outputs). -/
structure Psbt where
  tx : UnsignedTx
  finalized : Bool
deriving DecidableEq, Repr

/-- Results of the external calls made by `create_signed_transaction`:
the fee estimate from the Esplora client, the address parse, and the
finalized flag the bdk signer returns (or the signer error). -/
structure TxEnv where
  feeEstimate : Except String ℚ
  parseAddress : String → Except String Script
  sign : UnsignedTx → Except String Bool

/-- Embedding of `create_signed_transaction` (wallet.rs lines 125-152).

Control flow taken from the source:
- `get_fee_estimates(client, None).await.unwrap()` (line 130) — a failed fee
  lookup panics;
- `Address::from_str(address)?` (line 131) — a parse failure is propagated as
  `Err`;
- the builder `match tx_builder.finish()` (lines 143-146) — a builder error
  hits `panic!("Error creating transaction: ...")`;
- the signer `match wallet.sign(&mut psbt, ...)` (lines 147-150) — a signer
  error hits `panic!("Error signing transaction: ...")`, and on success the
  returned `finalized` flag is bound and immediately discarded: the psbt is
  returned as `Ok` whether or not it was finalized. -/
def create_signed_transaction (env : TxEnv) (utxos : List Utxo) (address : String) :
    Outcome String Psbt :=
  match env.feeEstimate with
  | .error _ => .panicked "called Result::unwrap on an Err value"
  | .ok feeRate =>
    match env.parseAddress address with
    | .error e => .err e
    | .ok script =>
      match drainTo utxos script feeRate with
      | .error _ => .panicked "Error creating transaction"
      | .ok tx =>
        match env.sign tx with
        | .error _ => .panicked "Error signing transaction"
        | .ok finalized => .ok { tx := tx, finalized := finalized }

/-- Embedding of `broadcast_signed_transaction` (wallet.rs lines 155-159).
The source extracts the wire transaction, runs
`let _ = client.broadcast(&tx).await;` — discarding the broadcast result —
and returns `Ok(tx)` unconditionally. -/
def broadcast_signed_transaction (psbt : Psbt) (broadcastResult : Except String Unit) :
    Outcome String UnsignedTx :=
  let tx := psbt.tx
  let _ := broadcastResult
  .ok tx

/-- Two UTXOs refer to the same outpoint `(txid, vout)`. -/
def sameOutpoint (a b : Utxo) : Bool :=
  a.txid == b.txid && a.vout == b.vout

/-- Modelled from the spec: the UTXOs of the scan result whose outpoint is not
already known to the wallet (spec section 5: the merge step is keyed by
outpoint and must be idempotent). -/
def newUtxos (known observed : List Utxo) : List Utxo :=
  observed.filter (fun o => !(known.any (fun k => sameOutpoint k o)))

/-- Modelled from the spec: merging a scan result into the known UTXO set —
known UTXOs are kept, observed UTXOs are added unless their outpoint is
already present (spec sections 4.3 and 5). -/
def mergeUtxos (known observed : List Utxo) : List Utxo :=
  known ++ newUtxos known observed

/-- Embedding of `sync_wallet` (wallet.rs lines 90-106). The remote
`client.scan` call is a parameter: `scanResult` is either a client-level
error or the list of wallet-owned UTXOs the remote indexer reports for the
current chain state. Modelled from the spec where the logic lives in the
external bdk libraries: `apply_update` merges by outpoint and `commit`
reports whether anything changed (spec sections 4.3 and 5). A client error
is propagated as `Err` (the `?` on `client.scan(...)` in the source) and
leaves the wallet untouched. -/
def sync_wallet (w : Wallet) (scanResult : Except String (List Utxo)) :
    Wallet × Except String Bool :=
  match scanResult with
  | .error e => (w, .error e)
  | .ok observed =>
    let merged := mergeUtxos w.utxos observed
    ({ w with utxos := merged }, .ok (!(newUtxos w.utxos observed).isEmpty))

/-- Everything `post_send_transaction` obtains from outside: the external
calls of wallet creation, the remote scan result, the external calls of
transaction construction, and the broadcast result. -/
structure SendEnv where
  walletEnv : WalletEnv
  scanResult : Except String (List Utxo)
  txEnv : TxEnv
  broadcastResult : Except String Unit

/-- Embedding of `post_send_transaction` (wallet.rs lines 243-267).

Control flow taken from the source:
- the Esplora base URL is chosen by `esploraBaseUrl` (line 245);
- `create_wallet(...).unwrap()` (lines 249-252) — an `Err` from wallet
  creation panics;
- `let _ = sync_wallet(&mut wallet, &esplora_client).await;` (line 255) —
  the sync result is discarded: a sync error is neither returned nor checked,
  and the code proceeds with whatever UTXO view the wallet has;
- `create_signed_transaction(...).await.unwrap()` (line 259) — an `Err`
  panics;
- `broadcast_signed_transaction(...).await.unwrap()` (line 262) — an `Err`
  panics. -/
def post_send_transaction (env : SendEnv) (mnemonic network address : String) :
    Outcome String UnsignedTx :=
  let _ := esploraBaseUrl network
  match create_wallet env.walletEnv mnemonic network
      DEFAULT_DERIVATION_PATH_EXTERNAL DEFAULT_DERIVATION_PATH_INTERNAL with
  | .err _ => .panicked "called Result::unwrap on an Err value"
  | .panicked msg => .panicked msg
  | .ok w =>
    let (w2, _) := sync_wallet w env.scanResult
    match create_signed_transaction env.txEnv w2.utxos address with
    | .err _ => .panicked "called Result::unwrap on an Err value"
    | .panicked msg => .panicked msg
    | .ok psbt =>
      match broadcast_signed_transaction psbt env.broadcastResult with
      | .err _ => .panicked "called Result::unwrap on an Err value"
      | .panicked msg => .panicked msg
      | .ok tx => .ok tx

/-- The serializable address record of wallet.rs (`AddressInfoDef`,
lines 30-35). -/
structure AddressInfoDef where
  index : Nat
  address : String
  keychain : String
deriving DecidableEq, Repr

/-- Embedding of `get_address` (wallet.rs lines 212-238). The address-type
string is resolved by `addressTypeOfString` (an unrecognized string silently
becomes `Receive`, line 218); wallet creation is `create_wallet(...).unwrap()`
(lines 223-226), so an `Err` panics; the address itself is produced by the
external `wallet.get_address` / `wallet.get_internal_address`, a parameter
`deriveAddr` of the embedding. No error path exists for the address-type
resolution. -/
def get_address (env : WalletEnv) (deriveAddr : Wallet → AddressType → Nat → AddressInfoDef)
    (mnemonic network addressType : String) (index : Nat) :
    Outcome String AddressInfoDef :=
  let addrTy := addressTypeOfString addressType
  match create_wallet env mnemonic network
      DEFAULT_DERIVATION_PATH_EXTERNAL DEFAULT_DERIVATION_PATH_INTERNAL with
  | .err _ => .panicked "called Result::unwrap on an Err value"
  | .panicked msg => .panicked msg
  | .ok w => .ok (deriveAddr w addrTy index)

/-! Concrete environments used to evaluate the embeddings at specific inputs:
each stands for one behaviour of the external libraries. -/

/-- An environment in which every external call of wallet creation succeeds. -/
def okWalletEnv : WalletEnv where
  parseMnemonic := fun s => .ok { raw := s }
  parsePath := fun _ => .ok { steps := [] }
  makeDescriptor := fun _ p n => .ok { path := p, network := n }
  newWallet := fun _ _ _ => .ok ()

/-- An environment in which `DerivationPath::from_str` fails. -/
def badPathWalletEnv : WalletEnv :=
  { okWalletEnv with parsePath := fun _ => .error "invalid path string" }

/-- An environment in which descriptor construction fails. -/
def badDescWalletEnv : WalletEnv :=
  { okWalletEnv with makeDescriptor := fun _ _ _ => .error "descriptor failure" }

/-- A single 50000-sat UTXO used as a concrete funded wallet state. -/
def utxo50k : Utxo := { txid := "funding-tx", vout := 0, value := 50000 }

/-- An environment in which the fee estimate is 1 sat/vbyte, the address
parses, and the signer finalizes every input. -/
def okTxEnv : TxEnv where
  feeEstimate := .ok 1
  parseAddress := fun s => .ok { bytes := s }
  sign := fun _ => .ok true

/-- Like `okTxEnv`, but the bdk signer returns an error. -/
def signErrTxEnv : TxEnv :=
  { okTxEnv with sign := fun _ => .error "signer failure" }

/-- Like `okTxEnv`, but `wallet.sign` succeeds without finalizing every input
(it returns `Ok(false)`). -/
def unfinalizedTxEnv : TxEnv :=
  { okTxEnv with sign := fun _ => .ok false }

/-- The drain transaction built from `[utxo50k]` at 1 sat/vbyte: vsize is
`11 + 58 + 43 = 112`, the fee is 112 sats, the single output carries
`50000 - 112 = 49888` sats. -/
def tx50kDrain : UnsignedTx :=
  { inputs := [utxo50k],
    outputs := [{ script := { bytes := "tb1-dest" }, value := 49888 }],
    fee := 112, rbf := true }

/-- A send environment whose remote scan fails with a client error while every
other external call succeeds. -/
def syncErrSendEnv : SendEnv where
  walletEnv := okWalletEnv
  scanResult := .error "esplora unreachable"
  txEnv := okTxEnv
  broadcastResult := .ok ()

/-- A deterministic stand-in for the external address derivation of
`get_address`. -/
def exDeriveAddr : Wallet → AddressType → Nat → AddressInfoDef :=
  fun _ t i =>
    { index := i,
      address := (match t with | .Receive => "ext-" | .Change => "int-") ++ toString i,
      keychain := match t with | .Receive => "External" | .Change => "Internal" }

/-- C4: the wallet network and the Esplora indexer network never agree on
mainnet. Any string that makes `create_wallet` select the mainnet network is
exactly `"mainnet"`, and for it the endpoints choose the testnet indexer URL;
conversely the string `"bitcoin"` gets the mainnet indexer URL but a testnet
wallet. -/
theorem mainnet_selector_mismatch (s : String)
    (h : networkOfString s = Network.Bitcoin) :
    s = "mainnet" ∧
    esploraBaseUrl s = DEFAULT_ESPLORA_BASE_URL_TESTNET ∧
    networkOfString "bitcoin" = Network.Testnet ∧
    esploraBaseUrl "bitcoin" = DEFAULT_ESPLORA_BASE_URL_MAINNET := by
  unfold networkOfString at h
  split_ifs at h with h1 h2 h3 h4
  · refine ⟨h1, ?_, by decide, by decide⟩
    rw [h1]
    unfold esploraBaseUrl
    rw [if_neg (by decide)]

/-- Witness for C4 at the concrete input `"mainnet"`. -/
theorem mainnet_selector_mismatch_witness :
    "mainnet" = "mainnet" ∧
    esploraBaseUrl "mainnet" = DEFAULT_ESPLORA_BASE_URL_TESTNET ∧
    networkOfString "bitcoin" = Network.Testnet ∧
    esploraBaseUrl "bitcoin" = DEFAULT_ESPLORA_BASE_URL_MAINNET :=
  mainnet_selector_mismatch "mainnet" (by decide)

/-- C5: `create_wallet` resolves the four recognized network strings to the
four networks, and every other string resolves to the testnet network —
resolution is a total function (it cannot fail) and an unrecognized string
never selects mainnet. -/
theorem network_fallback_testnet (s : String)
    (h1 : s ≠ "mainnet") (h2 : s ≠ "testnet")
    (h3 : s ≠ "signet") (h4 : s ≠ "regtest") :
    networkOfString "mainnet" = Network.Bitcoin ∧
    networkOfString "testnet" = Network.Testnet ∧
    networkOfString "signet" = Network.Signet ∧
    networkOfString "regtest" = Network.Regtest ∧
    networkOfString s = Network.Testnet ∧
    networkOfString s ≠ Network.Bitcoin := by
  have hs : networkOfString s = Network.Testnet := by
    unfold networkOfString
    rw [if_neg h1, if_neg h2, if_neg h3, if_neg h4]
  refine ⟨by decide, by decide, by decide, by decide, hs, ?_⟩
  rw [hs]
  decide

/-- Witness for C5 at the concrete unrecognized input `"foo"`. -/
theorem network_fallback_testnet_witness :
    networkOfString "mainnet" = Network.Bitcoin ∧
    networkOfString "testnet" = Network.Testnet ∧
    networkOfString "signet" = Network.Signet ∧
    networkOfString "regtest" = Network.Regtest ∧
    networkOfString "foo" = Network.Testnet ∧
    networkOfString "foo" ≠ Network.Bitcoin :=
  network_fallback_testnet "foo" (by decide) (by decide) (by decide) (by decide)

/-- C10 counterexample: the address-type parameter of `get_address` is NOT
rejected when unrecognized — the string `"foo"` silently resolves to
`Receive`, and `get_address` answers it exactly as it answers `"receive"`,
with a success value. -/
theorem address_type_silent_default_cex :
    addressTypeOfString "foo" = AddressType.Receive ∧
    get_address okWalletEnv exDeriveAddr "mnemonic-words" "testnet" "foo" 0 =
      get_address okWalletEnv exDeriveAddr "mnemonic-words" "testnet" "receive" 0 ∧
    get_address okWalletEnv exDeriveAddr "mnemonic-words" "testnet" "foo" 0 =
      Outcome.ok { index := 0, address := "ext-0", keychain := "External" } :=
  ⟨rfl, rfl, rfl⟩

/-- C10 (amended): the network-string fallback is not the only silent default:
`get_address` also silently substitutes `Receive` for every address-type
string other than `"receive"` and `"change"`, with no error path. -/
theorem address_type_fallback_receive (s : String)
    (h1 : s ≠ "receive") (h2 : s ≠ "change") :
    addressTypeOfString s = AddressType.Receive := by
  unfold addressTypeOfString
  rw [if_neg h1, if_neg h2]

/-- Witness for the amended C10 at the concrete input `"unknown-type"`. -/
theorem address_type_fallback_receive_witness :
    addressTypeOfString "unknown-type" = AddressType.Receive :=
  address_type_fallback_receive "unknown-type" (by decide) (by decide)

/-- C8: broadcasting is unconditional — for every signed transaction and
every result of the remote broadcast call (success or failure),
`broadcast_signed_transaction` returns the extracted transaction as a
success value; the broadcast result is discarded. -/
theorem broadcast_result_unconditional (psbt : Psbt)
    (broadcastResult : Except String Unit) :
    broadcast_signed_transaction psbt broadcastResult = Outcome.ok psbt.tx :=
  rfl

/-- Outpoint matching is reflexive. -/
lemma sameOutpoint_refl (a : Utxo) : sameOutpoint a a = true := by
  simp [sameOutpoint]

/-- After merging a scan result into the known set, scanning the same result
again contributes nothing new: every observed outpoint is already present. -/
lemma newUtxos_merge_self (k o : List Utxo) :
    newUtxos (mergeUtxos k o) o = [] := by
  rw [newUtxos, List.filter_eq_nil_iff]
  intro x hx
  suffices hany : (mergeUtxos k o).any (fun kk => sameOutpoint kk x) = true by
    simp [hany]
  unfold mergeUtxos
  rw [List.any_append]
  by_cases hk : k.any (fun kk => sameOutpoint kk x) = true
  · rw [hk, Bool.true_or]
  · have hkf : k.any (fun kk => sameOutpoint kk x) = false :=
      Bool.eq_false_iff.mpr hk
    have hmem : x ∈ newUtxos k o := by
      unfold newUtxos
      rw [List.mem_filter]
      exact ⟨hx, by rw [hkf]; rfl⟩
    have hobs : (newUtxos k o).any (fun kk => sameOutpoint kk x) = true :=
      List.any_eq_true.mpr ⟨x, hmem, sameOutpoint_refl x⟩
    rw [hobs, Bool.or_true]

/-- C9: sync is idempotent — for every wallet state and every unchanged remote
scan result, a second `sync_wallet` call leaves the known UTXO set exactly as
the first call left it and commits nothing (`Ok(false)`). -/
theorem sync_idempotent (w : Wallet) (observed : List Utxo) :
    (sync_wallet (sync_wallet w (Except.ok observed)).1 (Except.ok observed)).1 =
      (sync_wallet w (Except.ok observed)).1 ∧
    (sync_wallet (sync_wallet w (Except.ok observed)).1 (Except.ok observed)).2 =
      Except.ok false := by
  have hnew : newUtxos (mergeUtxos w.utxos observed) observed = [] :=
    newUtxos_merge_self w.utxos observed
  constructor
  · show ({ w with utxos := mergeUtxos (mergeUtxos w.utxos observed) observed } : Wallet) =
      { w with utxos := mergeUtxos w.utxos observed }
    have : mergeUtxos (mergeUtxos w.utxos observed) observed =
        mergeUtxos w.utxos observed := by
      conv_lhs => rw [mergeUtxos, hnew, List.append_nil]
    rw [this]
  · show Except.ok (!(newUtxos (mergeUtxos w.utxos observed) observed).isEmpty) =
      Except.ok false
    rw [hnew]
    rfl

/-- C7: evaluation of `create_wallet` at its derivation failure modes. With a
derivation-path string that fails to parse the call panics (the `.unwrap()` at
wallet.rs lines 65-66); with a valid path whose descriptor construction fails
the call panics (the `panic!` at wallet.rs line 75). In neither case is an
`InvalidDerivationPath` or `DescriptorError` error value returned to the
caller. -/
theorem derivation_failures_panic_eval :
    create_wallet badPathWalletEnv "mnemonic-words" "testnet"
        "not-a-path" DEFAULT_DERIVATION_PATH_INTERNAL =
      Outcome.panicked "called Option::unwrap on a None value" ∧
    create_wallet badDescWalletEnv "mnemonic-words" "testnet"
        DEFAULT_DERIVATION_PATH_EXTERNAL DEFAULT_DERIVATION_PATH_INTERNAL =
      Outcome.panicked "Invalid external derivation path: descriptor failure" :=
  ⟨rfl, rfl⟩

/-- C3: evaluation of `create_signed_transaction` at the builder failure
modes. With zero UTXOs (the `NoSpendableOutputs` case) and with a wallet whose
total value is below the dust threshold plus the fee (the `InsufficientFunds`
case), the call panics via `panic!("Error creating transaction: ...")`
(wallet.rs line 145) instead of returning the structured error to the
caller. -/
theorem builder_errors_panic_eval :
    create_signed_transaction okTxEnv [] "tb1-dest" =
      Outcome.panicked "Error creating transaction" ∧
    create_signed_transaction okTxEnv [{ txid := "small-tx", vout := 0, value := 100 }]
        "tb1-dest" =
      Outcome.panicked "Error creating transaction" := by
  constructor
  · rfl
  · simp [create_signed_transaction, okTxEnv, drainTo, drainTotal, drainFee,
      estimatedVirtualSize, dustThreshold]

/-- C2: evaluation of `create_signed_transaction` at the signing failure
modes. When the bdk signer returns an error the call panics via
`panic!("Error signing transaction: ...")` (wallet.rs line 149) instead of
returning a `SigningFailed` error; and when the signer succeeds without
finalizing every input (`Ok(false)`) the unfinalized transaction is returned
as a success value, because the `finalized` flag is discarded (wallet.rs
lines 147-150). -/
theorem signing_failures_eval :
    create_signed_transaction signErrTxEnv [utxo50k] "tb1-dest" =
      Outcome.panicked "Error signing transaction" ∧
    create_signed_transaction unfinalizedTxEnv [utxo50k] "tb1-dest" =
      Outcome.ok { tx := tx50kDrain, finalized := false } := by
  constructor
  · simp [create_signed_transaction, signErrTxEnv, okTxEnv, drainTo, drainTotal,
      drainFee, estimatedVirtualSize, dustThreshold, utxo50k]
  · simp [create_signed_transaction, unfinalizedTxEnv, okTxEnv, drainTo, drainTotal,
      drainFee, estimatedVirtualSize, dustThreshold, utxo50k, tx50kDrain]

/-- C6: evaluation of `post_send_transaction` when the wallet sync fails. With
a remote scan that returns a client error, the endpoint discards the sync
result (the `let _ =` at wallet.rs line 255) and proceeds to transaction
construction with the unsynced (empty) UTXO view, ending in the builder panic
— it does not return the sync error to the caller and it does not stop before
building. The second conjunct checks that the sync step itself did report the
error that was discarded. -/
theorem send_ignores_sync_failure_eval :
    post_send_transaction syncErrSendEnv "mnemonic-words" "testnet" "tb1-dest" =
      Outcome.panicked "Error creating transaction" ∧
    (sync_wallet
        { externalDesc := { path := { steps := [] }, network := Network.Testnet },
          internalDesc := { path := { steps := [] }, network := Network.Testnet },
          network := Network.Testnet, utxos := [] }
        syncErrSendEnv.scanResult).2 = Except.error "esplora unreachable" :=
  ⟨rfl, rfl⟩

/-- Rounding a nonnegative rational up to a natural number stays within one
unit of it. -/
lemma ceil_toNat_bounds (q : ℚ) (hq : 0 ≤ q) :
    q ≤ ((Int.ceil q).toNat : ℚ) ∧ ((Int.ceil q).toNat : ℚ) < q + 1 := by
  have h0 : (0 : ℤ) ≤ Int.ceil q := Int.ceil_nonneg hq
  have hcast : (((Int.ceil q).toNat : ℕ) : ℚ) = ((Int.ceil q : ℤ) : ℚ) := by
    rw [← Int.cast_natCast, Int.toNat_of_nonneg h0]
  constructor
  · rw [hcast]; exact Int.le_ceil q
  · rw [hcast]; exact Int.ceil_lt_add_one q

/-- The fee charged by the drain builder is `feeRate x estimatedVirtualSize`
within rounding: it is at least the exact product and less than one sat above
it. -/
lemma drainFee_bounds (utxos : List Utxo) (r : ℚ) (hr : 0 ≤ r) :
    r * ((estimatedVirtualSize utxos.length 1 : Nat) : ℚ) ≤ (drainFee utxos r : ℚ) ∧
    (drainFee utxos r : ℚ) <
      r * ((estimatedVirtualSize utxos.length 1 : Nat) : ℚ) + 1 := by
  have hq : 0 ≤ r * ((estimatedVirtualSize utxos.length 1 : Nat) : ℚ) :=
    mul_nonneg hr (by positivity)
  exact ceil_toNat_bounds _ hq

/-- C1: drain-transaction conservation. Whenever `create_signed_transaction`
returns a transaction, that transaction has exactly one output, the output
pays the destination script, the sum of the input values equals the output
value plus the fee exactly (no change output), and the fee is
`feeRate x estimatedVirtualSize` within rounding (at least the exact product,
less than one sat above it). -/
theorem drain_conservation (env : TxEnv) (utxos : List Utxo) (address : String)
    (r : ℚ) (psbt : Psbt)
    (hfee : env.feeEstimate = Except.ok r) (hr : 0 ≤ r)
    (h : create_signed_transaction env utxos address = Outcome.ok psbt) :
    psbt.tx.outputs.length = 1 ∧
    (∃ dest : Script, env.parseAddress address = Except.ok dest ∧
        psbt.tx.outputs =
          [{ script := dest, value := psbt.tx.inputSum - psbt.tx.fee }]) ∧
    psbt.tx.inputSum = psbt.tx.outputSum + psbt.tx.fee ∧
    r * ((estimatedVirtualSize psbt.tx.inputs.length 1 : Nat) : ℚ) ≤ (psbt.tx.fee : ℚ) ∧
    (psbt.tx.fee : ℚ) <
      r * ((estimatedVirtualSize psbt.tx.inputs.length 1 : Nat) : ℚ) + 1 := by
  unfold create_signed_transaction at h
  rw [hfee] at h
  dsimp only at h
  cases haddr : env.parseAddress address with
  | error e => rw [haddr] at h; exact absurd h (by simp)
  | ok dest =>
    rw [haddr] at h
    dsimp only at h
    cases hdrain : drainTo utxos dest r with
    | error e => rw [hdrain] at h; exact absurd h (by simp)
    | ok tx =>
      rw [hdrain] at h
      dsimp only at h
      cases hsign : env.sign tx with
      | error e => rw [hsign] at h; exact absurd h (by simp)
      | ok fin =>
        rw [hsign] at h
        dsimp only at h
        have hpsbt : psbt = { tx := tx, finalized := fin } := by
          cases h; rfl
        subst hpsbt
        unfold drainTo at hdrain
        split_ifs at hdrain with hemp hlow
        have htx : tx = { inputs := utxos, outputs := [{ script := dest, value := drainTotal utxos - drainFee utxos r }], fee := drainFee utxos r, rbf := true } :=
          (Except.ok.inj hdrain).symm
        subst htx
        push_neg at hlow
        have hfle : drainFee utxos r ≤ drainTotal utxos :=
          le_trans (Nat.le_add_left _ _) hlow
        have hbounds := drainFee_bounds utxos r hr
        have hout : UnsignedTx.outputSum { inputs := utxos, outputs := [{ script := dest, value := drainTotal utxos - drainFee utxos r }], fee := drainFee utxos r, rbf := true } = drainTotal utxos - drainFee utxos r := by
          simp [UnsignedTx.outputSum]
        refine ⟨rfl, ⟨dest, rfl, rfl⟩, ?_, hbounds.1, hbounds.2⟩
        show drainTotal utxos = _ + drainFee utxos r
        rw [hout]
        omega

/-- The signed transaction returned for the funded wallet `[utxo50k]` at fee
rate 1 sat/vbyte, with the signer finalizing every input. -/
def tx50kPsbt : Psbt := { tx := tx50kDrain, finalized := true }

/-- Witness for C1: the concrete funded wallet `[utxo50k]` at fee rate 1
sat/vbyte produces the drain transaction `tx50kDrain` (one 49888-sat output,
112-sat fee), and the conservation properties hold for it. -/
theorem drain_conservation_witness :
    tx50kPsbt.tx.outputs.length = 1 ∧
    (∃ dest : Script, okTxEnv.parseAddress "tb1-dest" = Except.ok dest ∧
        tx50kPsbt.tx.outputs =
          [{ script := dest, value := tx50kPsbt.tx.inputSum - tx50kPsbt.tx.fee }]) ∧
    tx50kPsbt.tx.inputSum = tx50kPsbt.tx.outputSum + tx50kPsbt.tx.fee ∧
    (1 : ℚ) * ((estimatedVirtualSize tx50kPsbt.tx.inputs.length 1 : Nat) : ℚ) ≤
      (tx50kPsbt.tx.fee : ℚ) ∧
    (tx50kPsbt.tx.fee : ℚ) <
      (1 : ℚ) * ((estimatedVirtualSize tx50kPsbt.tx.inputs.length 1 : Nat) : ℚ) + 1 :=
  drain_conservation okTxEnv [utxo50k] "tb1-dest" 1 tx50kPsbt rfl (by norm_num)
    (by simp [create_signed_transaction, okTxEnv, drainTo, drainTotal, drainFee,
      estimatedVirtualSize, dustThreshold, utxo50k, tx50kPsbt, tx50kDrain])

end BdkWallet
